import Mathlib

/-!
Verification of the moodleapp excerpt: the `CoreEvents` publish/subscribe
bus (src/unnamed/part_000) and the routing composition layer
(src/app/app-routing.module.ts), shallowly embedded in Lean 4.

JavaScript values delivered through the bus are modelled by `JsValue`:
`undefined`, `null`, an opaque primitive carrying its truthiness, or an
object carrying an optional `siteId` field plus opaque remaining content.
The bus's static fields `observables` and `uniqueEvents` become an explicit
`CoreEvents.State` threaded through the operations; callbacks are modelled
by numeric identifiers and every operation returns the list of
(callback, value) invocations it performed, in order.  The subscription
wrapper installed by `on` reads `value.siteId`, which in JavaScript throws
a TypeError when `value` is `undefined` or `null`; delivery therefore
reports a `throws` flag, and a throw interrupts delivery to the remaining
subscribers of that trigger call (run-to-completion model of the source's
synchronous fan-out).
-/

/-- Model of a JavaScript value as seen by the event bus: `undefined`,
`null`, an opaque primitive (with its truthiness recorded), or an object
with an optional string `siteId` field and opaque further content. -/
inductive JsValue where
  | undefined : JsValue
  | null : JsValue
  | prim (truthy : Bool) (v : Nat) : JsValue
  | obj (siteId : Option String) (rest : Nat) : JsValue
  deriving DecidableEq, Repr

/-- JavaScript truthiness of an optional string (`undefined` and the empty
string are falsy). -/
def strTruthy : Option String → Bool
  | none => false
  | some s => !(s == "")

/-- JavaScript falsiness of a `JsValue` (objects are always truthy). -/
def falsy : JsValue → Bool
  | JsValue.undefined => true
  | JsValue.null => true
  | JsValue.prim t _ => !t
  | JsValue.obj _ _ => false

/-- Set a key in a string-keyed association list, JavaScript
property-assignment style: replace in place if present, append if absent. -/
def setAssoc {α : Type} (l : List (String × α)) (k : String) (v : α) :
    List (String × α) :=
  match l with
  | [] => [(k, v)]
  | (k0, v0) :: rest =>
    if k0 == k then (k, v) :: rest else (k0, v0) :: setAssoc rest k v

namespace CoreEvents

/-- One live subscription: its RxJS subscription identity, the callback it
wraps, and the optional site-scope filter captured by the wrapper. -/
structure Subscription where
  subId : Nat
  cb : Nat
  scope : Option String
  deriving DecidableEq, Repr

/-- One part of a returned observer handle: the fake no-op handle returned
on unique-event replay, or a real handle identifying a subscription. -/
inductive ObsHandle where
  | fake : ObsHandle
  | single (channel : String) (subId : Nat) : ObsHandle
  deriving DecidableEq, Repr

/-- A `CoreEventObserver`: `on` returns one handle, `onMultiple` a
composite whose `off` releases every part. -/
structure Observer where
  parts : List ObsHandle
  deriving DecidableEq, Repr

/-- The static state of `CoreEvents`: the `observables` table (a key is
present exactly when a `Subject` has been created for that event name, its
value the list of live subscriptions in registration order), the
`uniqueEvents` table of stored unique-event payloads, and a counter for
fresh subscription identities. -/
structure State where
  observables : List (String × List Subscription)
  uniqueEvents : List (String × JsValue)
  nextId : Nat
  deriving DecidableEq, Repr

/-- Result of a trigger call: the state after the call, the
(callback, value) invocations performed in order, and whether the
delivery loop threw (a TypeError from reading `value.siteId` off an
`undefined`/`null` value inside the subscription wrapper). -/
structure TrigResult where
  state : State
  calls : List (Nat × JsValue)
  throws : Bool
  deriving DecidableEq, Repr

/-- `Object.assign(data || \x7b\x7d, \x7b siteId \x7d)` as performed by
`trigger`/`triggerUnique` when `siteId` is truthy: an object is mutated in
place and its `siteId` field overwritten; any other value is left
untouched, because the merge lands on a discarded temporary object. -/
def mergeSiteId (data : JsValue) (siteId : Option String) : JsValue :=
  if strTruthy siteId then
    match data with
    | JsValue.obj _ r => JsValue.obj siteId r
    | d => d
  else data

/-- The filter test of the subscription wrapper installed by `on`:
`!siteId || value.siteId == siteId`.  Returns `none` when evaluating
`value.siteId` throws (value `undefined` or `null` while the scope is
truthy), otherwise `some` of whether the callback fires. -/
def accepts (scope : Option String) (v : JsValue) : Option Bool :=
  if strTruthy scope then
    match v with
    | JsValue.undefined => none
    | JsValue.null => none
    | JsValue.prim _ _ => some false
    | JsValue.obj sid _ => some (sid == scope)
  else some true

/-- Synchronous fan-out of `Subject.next v` over the subscription list:
each wrapper runs in registration order; a wrapper that throws stops
delivery to the remaining subscribers. -/
def deliver (subs : List Subscription) (v : JsValue) :
    List (Nat × JsValue) × Bool :=
  match subs with
  | [] => ([], false)
  | s :: rest =>
    match accepts s.scope v with
    | none => ([], true)
    | some true => ((s.cb, v) :: (deliver rest v).1, (deliver rest v).2)
    | some false => deliver rest v

/-- `CoreEvents.on`: if a unique-event record exists for the name, call the
callback immediately with the stored payload, register nothing and return
the fake observer; otherwise lazily create the channel's subscriber list,
append a subscription wrapping the callback with the site-scope filter,
and return a real handle. -/
def «on» (st : State) (eventName : String) (cb : Nat) (siteId : Option String) :
    State × Observer × List (Nat × JsValue) :=
  match st.uniqueEvents.lookup eventName with
  | some v => (st, ⟨[ObsHandle.fake]⟩, [(cb, v)])
  | none =>
    let subs := (st.observables.lookup eventName).getD []
    ({ st with
        observables :=
          setAssoc st.observables eventName
            (subs ++ [⟨st.nextId, cb, siteId⟩]),
        nextId := st.nextId + 1 },
     ⟨[ObsHandle.single eventName st.nextId]⟩, [])

/-- `CoreEvents.onMultiple`: subscribe to every named event with the same
callback and scope (in list order, so unique-event replays fire during the
traversal), returning a composite handle of all the parts. -/
def onMultiple (st : State) (eventNames : List String) (cb : Nat)
    (siteId : Option String) : State × Observer × List (Nat × JsValue) :=
  match eventNames with
  | [] => (st, ⟨[]⟩, [])
  | n :: rest =>
    let r1 := «on» st n cb siteId
    let r2 := onMultiple r1.1 rest cb siteId
    (r2.1, ⟨r1.2.1.parts ++ r2.2.1.parts⟩, r1.2.2 ++ r2.2.2)

/-- `observer.off()` for a single handle: the fake handle does nothing; a
real handle unsubscribes its subscription (removal by identity, idempotent,
safe when the channel has no entry). -/
def offHandle (st : State) (h : ObsHandle) : State :=
  match h with
  | ObsHandle.fake => st
  | ObsHandle.single ch i =>
    match st.observables.lookup ch with
    | none => st
    | some subs =>
      { st with
          observables :=
            setAssoc st.observables ch
              (subs.filter (fun s => s.subId != i)) }

/-- `observer.off()` for a (possibly composite) observer: release every
underlying handle in order. -/
def offObserver (o : Observer) (st : State) : State :=
  o.parts.foldl offHandle st

/-- `CoreEvents.trigger`: if a `Subject` exists for the name, merge a
truthy `siteId` into the payload (`mergeSiteId`) and deliver it
synchronously to the current subscribers; otherwise do nothing.  The state
is never changed. -/
def trigger (st : State) (eventName : String) (data : JsValue)
    (siteId : Option String) : TrigResult :=
  match st.observables.lookup eventName with
  | none => ⟨st, [], false⟩
  | some subs =>
    let d := mergeSiteId data siteId
    let r := deliver subs d
    ⟨st, r.1, r.2⟩

/-- `CoreEvents.triggerUnique`: a no-op when a unique-event record already
exists for the name; otherwise merge a truthy `siteId` into the payload,
store the merged payload as the permanent unique-event record, and deliver
it to any subscribers already registered on the name. -/
def triggerUnique (st : State) (eventName : String) (data : JsValue)
    (siteId : Option String) : TrigResult :=
  match st.uniqueEvents.lookup eventName with
  | some _ => ⟨st, [], false⟩
  | none =>
    let d := mergeSiteId data siteId
    let st2 := { st with uniqueEvents := setAssoc st.uniqueEvents eventName d }
    match st.observables.lookup eventName with
    | none => ⟨st2, [], false⟩
    | some subs =>
      let r := deliver subs d
      ⟨st2, r.1, r.2⟩

/-- One call against the bus, for quantifying over arbitrary sequences of
later API activity. -/
inductive BusOp where
  | opOn (name : String) (cb : Nat) (scope : Option String) : BusOp
  | opOnMultiple (names : List String) (cb : Nat) (scope : Option String) : BusOp
  | opTrigger (name : String) (data : JsValue) (siteId : Option String) : BusOp
  | opTriggerUnique (name : String) (data : JsValue) (siteId : Option String) : BusOp
  | opOff (o : Observer) : BusOp
  deriving Repr

/-- State effect of one bus operation. -/
def runOp (st : State) (op : BusOp) : State :=
  match op with
  | BusOp.opOn n cb sc => («on» st n cb sc).1
  | BusOp.opOnMultiple ns cb sc => (onMultiple st ns cb sc).1
  | BusOp.opTrigger n d s => (trigger st n d s).state
  | BusOp.opTriggerUnique n d s => (triggerUnique st n d s).state
  | BusOp.opOff o => offObserver o st

/-- State effect of a sequence of bus operations, first to last. -/
def runSeq (st : State) (ops : List BusOp) : State :=
  ops.foldl runOp st

end CoreEvents

/-- A route guard: the `CoreRedirectGuard` injected by the routing layer,
or any other guard (opaque identity). -/
inductive Guard where
  | coreRedirectGuard : Guard
  | other (id : Nat) : Guard
  deriving DecidableEq, Repr

/-- An Angular route descriptor as far as `buildAppRoutes` touches it: the
optional `canLoad` and `canActivate` guard arrays, plus opaque remaining
fields. -/
structure Route where
  canLoad : Option (List Guard)
  canActivate : Option (List Guard)
  info : Nat
  deriving DecidableEq, Repr

namespace CoreArray

/-- Modelled from the spec: `CoreArray.flatten` (its source file is not
part of this excerpt) merges the route contributions of all feature
modules, i.e. flattens an array of arrays into one array preserving
order. -/
def flatten {α : Type} : List (List α) → List α
  | [] => []
  | l :: ls => l ++ flatten ls

end CoreArray

/-- The per-route mutation performed by `buildAppRoutes`:
`route.canLoad = route.canLoad ?? []`, same for `canActivate`, then push
`CoreRedirectGuard` onto both arrays. -/
def wrapRoute (route : Route) : Route :=
  let r1 := { route with canLoad := some (route.canLoad.getD []) }
  let r2 := { r1 with canActivate := some (r1.canActivate.getD []) }
  let r3 := { r2 with
    canLoad := some ((r2.canLoad.getD []) ++ [Guard.coreRedirectGuard]) }
  { r3 with
    canActivate := some ((r3.canActivate.getD []) ++ [Guard.coreRedirectGuard]) }

/-- `buildAppRoutes`: flatten the contributed route arrays and wrap every
route with the redirect guard. -/
def buildAppRoutes (contribs : List (List Route)) : List Route :=
  (CoreArray.flatten contribs).map wrapRoute

open CoreEvents

theorem lookup_setAssoc_self {α : Type} (l : List (String × α)) (k : String)
    (v : α) : (setAssoc l k v).lookup k = some v := by
  induction l with
  | nil => simp [setAssoc, List.lookup]
  | cons p rest ih =>
    obtain ⟨k0, v0⟩ := p
    by_cases h : k0 = k
    · subst h
      simp [setAssoc, List.lookup]
    · simp only [setAssoc, beq_iff_eq, h, if_false, List.lookup]
      have h2 : (k == k0) = false := beq_false_of_ne (Ne.symm h)
      simp [h2, ih]

theorem lookup_setAssoc_ne {α : Type} (l : List (String × α)) (k k2 : String)
    (v : α) (h : k2 ≠ k) : (setAssoc l k v).lookup k2 = l.lookup k2 := by
  induction l with
  | nil => simp [setAssoc, List.lookup, beq_false_of_ne h]
  | cons p rest ih =>
    obtain ⟨k0, v0⟩ := p
    by_cases h0 : k0 = k
    · subst h0
      simp [setAssoc, List.lookup, beq_false_of_ne h]
    · simp only [setAssoc, beq_iff_eq, h0, if_false, List.lookup]
      by_cases h2 : k2 = k0
      · simp [h2]
      · simp [beq_false_of_ne h2, ih]

theorem accepts_isSome (scope : Option String) (v : JsValue)
    (h1 : v ≠ JsValue.undefined) (h2 : v ≠ JsValue.null) :
    (accepts scope v).isSome = true := by
  cases v with
  | undefined => exact absurd rfl h1
  | null => exact absurd rfl h2
  | prim t n => simp [accepts]; split <;> simp
  | obj sid r => simp [accepts]; split <;> simp

theorem deliver_no_throw_eq (subs : List Subscription) (v : JsValue)
    (h : (deliver subs v).2 = false) :
    (deliver subs v).1 = subs.filterMap
      (fun s => match accepts s.scope v with
                | some true => some (s.cb, v)
                | _ => none) := by
  induction subs with
  | nil => simp [deliver]
  | cons s rest ih =>
    cases ha : accepts s.scope v with
    | none => simp [deliver, ha] at h
    | some b =>
      cases b with
      | true =>
        simp only [deliver, ha] at h ⊢
        simp [List.filterMap_cons, ha, ih h]
      | false =>
        simp only [deliver, ha] at h ⊢
        simp [List.filterMap_cons, ha, ih h]

theorem deliver_defined_no_throw (subs : List Subscription) (v : JsValue)
    (h1 : v ≠ JsValue.undefined) (h2 : v ≠ JsValue.null) :
    (deliver subs v).2 = false := by
  induction subs with
  | nil => simp [deliver]
  | cons s rest ih =>
    cases ha : accepts s.scope v with
    | none =>
      have := accepts_isSome s.scope v h1 h2
      rw [ha] at this
      simp at this
    | some b => cases b <;> simp [deliver, ha, ih]

theorem deliver_unscoped (subs : List Subscription) (v : JsValue)
    (h : ∀ s ∈ subs, strTruthy s.scope = false) :
    deliver subs v = (subs.map (fun s => (s.cb, v)), false) := by
  induction subs with
  | nil => simp [deliver]
  | cons s rest ih =>
    have hs : strTruthy s.scope = false := h s (List.mem_cons_self s rest)
    have ha : accepts s.scope v = some true := by simp [accepts, hs]
    have ihr := ih (fun x hx => h x (List.mem_cons_of_mem s hx))
    simp [deliver, ha, ihr]

theorem deliver_val (subs : List Subscription) (v : JsValue) :
    ∀ p ∈ (deliver subs v).1, p.2 = v := by
  induction subs with
  | nil => simp [deliver]
  | cons s rest ih =>
    cases ha : accepts s.scope v with
    | none => simp [deliver, ha]
    | some b =>
      cases b with
      | true =>
        simp only [deliver, ha]
        intro p hp
        rcases List.mem_cons.mp hp with h1 | h2
        · simp [h1]
        · exact ih p h2
      | false => simpa [deliver, ha] using ih

theorem on_state_uniqueEvents (st : State) (n : String) (cb : Nat)
    (sc : Option String) : ((«on» st n cb sc).1).uniqueEvents = st.uniqueEvents := by
  unfold «on»
  cases st.uniqueEvents.lookup n <;> simp

theorem onMultiple_state_uniqueEvents (ns : List String) (st : State) (cb : Nat)
    (sc : Option String) :
    ((onMultiple st ns cb sc).1).uniqueEvents = st.uniqueEvents := by
  induction ns generalizing st with
  | nil => simp [onMultiple]
  | cons n rest ih =>
    simp only [onMultiple]
    rw [ih, on_state_uniqueEvents]

theorem trigger_state (st : State) (n : String) (d : JsValue)
    (s : Option String) : (trigger st n d s).state = st := by
  unfold trigger
  cases st.observables.lookup n <;> simp

theorem offHandle_uniqueEvents (st : State) (h : ObsHandle) :
    (offHandle st h).uniqueEvents = st.uniqueEvents := by
  cases h with
  | fake => simp [offHandle]
  | single ch i =>
    unfold offHandle
    cases hc : st.observables.lookup ch <;> simp [hc]

theorem offObserver_uniqueEvents (o : Observer) (st : State) :
    (offObserver o st).uniqueEvents = st.uniqueEvents := by
  obtain ⟨parts⟩ := o
  induction parts generalizing st with
  | nil => simp [offObserver]
  | cons p rest ih =>
    simp only [offObserver, List.foldl_cons]
    rw [show (List.foldl offHandle (offHandle st p) rest)
          = offObserver ⟨rest⟩ (offHandle st p) from rfl]
    rw [ih, offHandle_uniqueEvents]

theorem triggerUnique_lookup_preserve (st : State) (n C : String) (d : JsValue)
    (s : Option String) (v : JsValue) (h : st.uniqueEvents.lookup C = some v) :
    ((triggerUnique st n d s).state).uniqueEvents.lookup C = some v := by
  unfold triggerUnique
  cases hn : st.uniqueEvents.lookup n with
  | some w => simpa using h
  | none =>
    have hne : C ≠ n := by
      intro he
      rw [he, hn] at h
      exact Option.noConfusion h
    cases st.observables.lookup n <;>
      simp [lookup_setAssoc_ne _ _ _ _ hne, h]

theorem runOp_lookup_preserve (st : State) (op : BusOp) (C : String)
    (v : JsValue) (h : st.uniqueEvents.lookup C = some v) :
    ((runOp st op).uniqueEvents).lookup C = some v := by
  cases op with
  | opOn n cb sc => rw [runOp, on_state_uniqueEvents]; exact h
  | opOnMultiple ns cb sc => rw [runOp, onMultiple_state_uniqueEvents]; exact h
  | opTrigger n d s => rw [runOp, trigger_state]; exact h
  | opTriggerUnique n d s => exact triggerUnique_lookup_preserve st n C d s v h
  | opOff o => rw [runOp, offObserver_uniqueEvents]; exact h

theorem runSeq_lookup_preserve (ops : List BusOp) (st : State) (C : String)
    (v : JsValue) (h : st.uniqueEvents.lookup C = some v) :
    ((runSeq st ops).uniqueEvents).lookup C = some v := by
  induction ops generalizing st with
  | nil => simpa [runSeq] using h
  | cons op rest ih =>
    simp only [runSeq, List.foldl_cons]
    exact ih (runOp st op) (runOp_lookup_preserve st op C v h)

theorem triggerUnique_noop (st : State) (C : String) (d : JsValue)
    (s : Option String) (h : (st.uniqueEvents.lookup C).isSome = true) :
    triggerUnique st C d s = ⟨st, [], false⟩ := by
  obtain ⟨w, hw⟩ := Option.isSome_iff_exists.mp h
  unfold triggerUnique
  rw [hw]

theorem triggerUnique_state_of_none (st : State) (C : String) (d : JsValue)
    (s : Option String) (h : st.uniqueEvents.lookup C = none) :
    (triggerUnique st C d s).state
      = { st with uniqueEvents := setAssoc st.uniqueEvents C (mergeSiteId d s) } := by
  unfold triggerUnique
  rw [h]
  cases hc : st.observables.lookup C <;> simp [hc]

theorem mergeSiteId_defined (data : JsValue) (siteId : Option String)
    (h1 : data ≠ JsValue.undefined) (h2 : data ≠ JsValue.null) :
    mergeSiteId data siteId ≠ JsValue.undefined
    ∧ mergeSiteId data siteId ≠ JsValue.null := by
  cases data with
  | undefined => exact absurd rfl h1
  | null => exact absurd rfl h2
  | prim t n => unfold mergeSiteId; split <;> simp
  | obj sid r => unfold mergeSiteId; split <;> simp

theorem mergeSiteId_nonobj (data : JsValue) (siteId : Option String)
    (h : ∀ sid r, data ≠ JsValue.obj sid r) :
    mergeSiteId data siteId = data := by
  unfold mergeSiteId
  split
  · cases data with
    | obj sid r => exact absurd rfl (h sid r)
    | undefined => rfl
    | null => rfl
    | prim t n => rfl
  · rfl

/-- Claim C1: when a channel already has a stored unique-event record,
`on` invokes the callback immediately with the stored payload, registers
no live subscription (the state is unchanged), and returns a handle whose
`off` changes nothing. -/
theorem on_replays_unique_record (st st2 : State) (C : String) (v : JsValue)
    (cb : Nat) (scope : Option String)
    (h : st.uniqueEvents.lookup C = some v) :
    «on» st C cb scope = (st, ⟨[ObsHandle.fake]⟩, [(cb, v)])
    ∧ offObserver («on» st C cb scope).2.1 st2 = st2 := by
  have he : «on» st C cb scope = (st, ⟨[ObsHandle.fake]⟩, [(cb, v)]) := by
    unfold «on»
    rw [h]
  refine ⟨he, ?_⟩
  rw [he]
  simp [offObserver, offHandle]

theorem on_replays_unique_record_witness :
    «on» ⟨[], [("c", JsValue.obj none 7)], 0⟩ "c" 3 none
      = (⟨[], [("c", JsValue.obj none 7)], 0⟩, ⟨[ObsHandle.fake]⟩,
         [(3, JsValue.obj none 7)])
    ∧ offObserver («on» ⟨[], [("c", JsValue.obj none 7)], 0⟩ "c" 3 none).2.1
        ⟨[("a", [⟨0, 1, none⟩])], [], 1⟩ = ⟨[("a", [⟨0, 1, none⟩])], [], 1⟩ :=
  on_replays_unique_record ⟨[], [("c", JsValue.obj none 7)], 0⟩
    ⟨[("a", [⟨0, 1, none⟩])], [], 1⟩ "c" (JsValue.obj none 7) 3 none (by decide)

/-- Claim C2: `triggerUnique` is idempotent per channel — when a record
already exists the call is a no-op (state kept, nobody notified, no
error); and after two `triggerUnique` calls on a fresh channel, a new
subscriber receives the first (merged) payload exactly once, immediately,
with no live registration left behind. -/
theorem triggerUnique_idempotent (st st0 : State) (C C0 : String)
    (v1 v1b v2 : JsValue) (s1 s1b s2 scope : Option String) (cb : Nat)
    (h1 : (st.uniqueEvents.lookup C).isSome = true)
    (h0 : st0.uniqueEvents.lookup C0 = none) :
    triggerUnique st C v2 s2 = ⟨st, [], false⟩
    ∧ «on» (triggerUnique (triggerUnique st0 C0 v1 s1).state C0 v1b s1b).state
        C0 cb scope
      = ((triggerUnique (triggerUnique st0 C0 v1 s1).state C0 v1b s1b).state,
         ⟨[ObsHandle.fake]⟩, [(cb, mergeSiteId v1 s1)]) := by
  refine ⟨triggerUnique_noop st C v2 s2 h1, ?_⟩
  have e1 : ((triggerUnique st0 C0 v1 s1).state).uniqueEvents.lookup C0
      = some (mergeSiteId v1 s1) := by
    rw [triggerUnique_state_of_none st0 C0 v1 s1 h0]
    exact lookup_setAssoc_self st0.uniqueEvents C0 (mergeSiteId v1 s1)
  have e2 := triggerUnique_noop ((triggerUnique st0 C0 v1 s1).state) C0 v1b s1b
    (by rw [e1]; rfl)
  rw [e2]
  unfold «on»
  rw [e1]

theorem triggerUnique_idempotent_witness :
    triggerUnique ⟨[], [("d", JsValue.prim true 1)], 0⟩ "d"
        (JsValue.obj none 2) none
      = ⟨⟨[], [("d", JsValue.prim true 1)], 0⟩, [], false⟩
    ∧ «on» (triggerUnique
          (triggerUnique ⟨[], [], 0⟩ "c" (JsValue.obj none 8) (some "s1")).state
          "c" (JsValue.obj none 9) none).state "c" 4 none
      = ((triggerUnique
          (triggerUnique ⟨[], [], 0⟩ "c" (JsValue.obj none 8) (some "s1")).state
          "c" (JsValue.obj none 9) none).state,
         ⟨[ObsHandle.fake]⟩, [(4, mergeSiteId (JsValue.obj none 8) (some "s1"))]) :=
  triggerUnique_idempotent ⟨[], [("d", JsValue.prim true 1)], 0⟩ ⟨[], [], 0⟩
    "d" "c" (JsValue.obj none 8) (JsValue.obj none 9) (JsValue.obj none 2)
    (some "s1") none none none 4 (by decide) (by decide)

/-- Claim C5: `trigger` never changes the unique-event table (a channel
used with `trigger` never gains replay-on-subscribe semantics), and a
trigger on a channel with no subscribers completes without error, changes
nothing and queues nothing. -/
theorem trigger_frame (st : State) (C : String) (data : JsValue)
    (siteId : Option String) :
    ((trigger st C data siteId).state).uniqueEvents = st.uniqueEvents
    ∧ ((st.observables.lookup C).getD [] = [] →
        trigger st C data siteId = ⟨st, [], false⟩) := by
  refine ⟨by rw [trigger_state], ?_⟩
  intro h
  unfold trigger
  cases hc : st.observables.lookup C with
  | none => rfl
  | some subs =>
    rw [hc] at h
    simp only [Option.getD] at h
    subst h
    simp [deliver]

/-- Claim C3 counterexample: a subscriber registered on channel `c` with
site scope `s1` before the first `triggerUnique` on `c` does not observe
the stored payload at all (zero invocations, no error), contradicting the
claim that every pre-registered subscriber, with any siteScope, observes
it exactly once. -/
theorem triggerUnique_skips_scoped_subscriber :
    (triggerUnique ⟨[("c", [⟨0, 5, some "s1"⟩])], [], 1⟩ "c"
        (JsValue.obj none 0) none).throws = false
    ∧ (triggerUnique ⟨[("c", [⟨0, 5, some "s1"⟩])], [], 1⟩ "c"
        (JsValue.obj none 0) none).calls = [] := by
  decide

/-- Claim C3 (amended): on the first `triggerUnique` of a channel, when
delivery does not throw, the pre-registered subscribers that observe the
stored payload (exactly once each, in order) are exactly those whose
site-scope filter accepts it; and a subscriber registering at any later
time receives the stored payload exactly once immediately, regardless of
scope, with the state unchanged (no live registration). -/
theorem triggerUnique_first_trigger_delivery (st : State) (C : String)
    (data : JsValue) (siteId : Option String) (cb : Nat)
    (scope : Option String) (ops : List BusOp)
    (h : st.uniqueEvents.lookup C = none) :
    ((triggerUnique st C data siteId).throws = false →
      (triggerUnique st C data siteId).calls
        = ((st.observables.lookup C).getD []).filterMap
            (fun s => match accepts s.scope (mergeSiteId data siteId) with
                      | some true => some (s.cb, mergeSiteId data siteId)
                      | _ => none))
    ∧ («on» (runSeq (triggerUnique st C data siteId).state ops) C cb scope).2.2
        = [(cb, mergeSiteId data siteId)]
    ∧ («on» (runSeq (triggerUnique st C data siteId).state ops) C cb scope).1
        = runSeq (triggerUnique st C data siteId).state ops := by
  have hrec : ((triggerUnique st C data siteId).state).uniqueEvents.lookup C
      = some (mergeSiteId data siteId) := by
    rw [triggerUnique_state_of_none st C data siteId h]
    exact lookup_setAssoc_self st.uniqueEvents C (mergeSiteId data siteId)
  have hrun := runSeq_lookup_preserve ops ((triggerUnique st C data siteId).state)
    C (mergeSiteId data siteId) hrec
  refine ⟨?_, ?_, ?_⟩
  · intro ht
    unfold triggerUnique at ht ⊢
    rw [h] at ht ⊢
    cases hc : st.observables.lookup C with
    | none => simp
    | some subs =>
      rw [hc] at ht
      simp only at ht
      simp only [hc, Option.getD]
      exact deliver_no_throw_eq subs (mergeSiteId data siteId) ht
  · unfold «on»
    rw [hrun]
  · unfold «on»
    rw [hrun]

theorem triggerUnique_first_trigger_delivery_witness :
    ((triggerUnique ⟨[("c", [⟨0, 4, none⟩])], [], 1⟩ "c"
        (JsValue.obj none 9) none).throws = false →
      (triggerUnique ⟨[("c", [⟨0, 4, none⟩])], [], 1⟩ "c"
          (JsValue.obj none 9) none).calls
        = (((⟨[("c", [⟨0, 4, none⟩])], [], 1⟩ : State).observables.lookup
            "c").getD []).filterMap
            (fun s => match accepts s.scope
                        (mergeSiteId (JsValue.obj none 9) none) with
                      | some true =>
                          some (s.cb, mergeSiteId (JsValue.obj none 9) none)
                      | _ => none))
    ∧ («on» (runSeq (triggerUnique ⟨[("c", [⟨0, 4, none⟩])], [], 1⟩ "c"
          (JsValue.obj none 9) none).state []) "c" 6 (some "s2")).2.2
        = [(6, mergeSiteId (JsValue.obj none 9) none)]
    ∧ («on» (runSeq (triggerUnique ⟨[("c", [⟨0, 4, none⟩])], [], 1⟩ "c"
          (JsValue.obj none 9) none).state []) "c" 6 (some "s2")).1
        = runSeq (triggerUnique ⟨[("c", [⟨0, 4, none⟩])], [], 1⟩ "c"
            (JsValue.obj none 9) none).state [] :=
  triggerUnique_first_trigger_delivery ⟨[("c", [⟨0, 4, none⟩])], [], 1⟩ "c"
    (JsValue.obj none 9) none 6 (some "s2") [] (by decide)

/-- Claim C4 counterexample: a subscription created with the empty-string
site scope is site-scoped as far as the claim is concerned, yet it
receives a payload carrying no `siteId` field at all (the empty string is
falsy, so the wrapper's filter accepts everything), contradicting the
claimed if-and-only-if. -/
theorem empty_scope_receives_unscoped_payload :
    («on» ⟨[], [], 0⟩ "c" 7 (some "")).1
      = ⟨[("c", [⟨0, 7, some ""⟩])], [], 1⟩
    ∧ (trigger ⟨[("c", [⟨0, 7, some ""⟩])], [], 1⟩ "c"
        (JsValue.obj none 3) none).calls = [(7, JsValue.obj none 3)] := by
  decide

/-- Claim C4 (amended): for a subscription whose site scope is a
*non-empty* string, and an object-like delivered payload, the wrapper
accepts exactly when the payload's `siteId` field equals the scope (in
particular a differing or absent `siteId` is never delivered); a full
`trigger` call then throws nothing and invokes, in order, exactly the
subscribers whose filters accept; and unique-event replay at subscribe
time delivers the stored payload regardless of the subscriber's scope.
A subscription created with the empty-string scope instead behaves as
unscoped. -/
theorem scoped_delivery_iff_siteId_matches (st st2 : State) (C C2 : String)
    (data v : JsValue) (siteId : Option String) (subs : List Subscription)
    (sc sc2 : String) (cb : Nat) (sid : Option String) (r : Nat)
    (hsc : sc ≠ "")
    (hd : mergeSiteId data siteId = JsValue.obj sid r)
    (hs : st.observables.lookup C = some subs)
    (hrec : st2.uniqueEvents.lookup C2 = some v) :
    accepts (some sc) (mergeSiteId data siteId) = some (sid == some sc)
    ∧ (trigger st C data siteId).throws = false
    ∧ (trigger st C data siteId).calls
        = subs.filterMap
            (fun s => match accepts s.scope (mergeSiteId data siteId) with
                      | some true => some (s.cb, mergeSiteId data siteId)
                      | _ => none)
    ∧ («on» st2 C2 cb (some sc2)).2.2 = [(cb, v)] := by
  have hth : (trigger st C data siteId).throws = false := by
    unfold trigger
    rw [hs]
    exact deliver_defined_no_throw subs (mergeSiteId data siteId)
      (by rw [hd]; simp) (by rw [hd]; simp)
  refine ⟨?_, hth, ?_, ?_⟩
  · rw [hd]
    simp [accepts, strTruthy, beq_false_of_ne hsc]
  · unfold trigger at hth ⊢
    rw [hs] at hth ⊢
    exact deliver_no_throw_eq subs (mergeSiteId data siteId) hth
  · unfold «on»
    rw [hrec]

theorem scoped_delivery_iff_siteId_matches_witness :
    accepts (some "s1") (mergeSiteId (JsValue.obj none 4) (some "s1"))
      = some ((some "s1" : Option String) == some "s1")
    ∧ (trigger ⟨[("c", [⟨0, 7, some "s1"⟩])], [], 1⟩ "c"
        (JsValue.obj none 4) (some "s1")).throws = false
    ∧ (trigger ⟨[("c", [⟨0, 7, some "s1"⟩])], [], 1⟩ "c"
        (JsValue.obj none 4) (some "s1")).calls
        = ([⟨0, 7, some "s1"⟩] : List Subscription).filterMap
            (fun s => match accepts s.scope
                        (mergeSiteId (JsValue.obj none 4) (some "s1")) with
                      | some true =>
                          some (s.cb, mergeSiteId (JsValue.obj none 4) (some "s1"))
                      | _ => none)
    ∧ («on» ⟨[], [("u", JsValue.prim true 3)], 0⟩ "u" 9 (some "s9")).2.2
        = [(9, JsValue.prim true 3)] :=
  scoped_delivery_iff_siteId_matches
    ⟨[("c", [⟨0, 7, some "s1"⟩])], [], 1⟩ ⟨[], [("u", JsValue.prim true 3)], 0⟩
    "c" "u" (JsValue.obj none 4) (JsValue.prim true 3) (some "s1")
    [⟨0, 7, some "s1"⟩] "s1" "s9" 9 (some "s1") 4
    (by decide) (by decide) (by decide) (by decide)

theorem trigger_frame_witness :
    ((trigger ⟨[], [], 0⟩ "c" (JsValue.obj none 1) (some "s1")).state).uniqueEvents
      = (⟨[], [], 0⟩ : State).uniqueEvents
    ∧ trigger ⟨[], [], 0⟩ "c" (JsValue.obj none 1) (some "s1")
        = ⟨⟨[], [], 0⟩, [], false⟩ :=
  ⟨(trigger_frame ⟨[], [], 0⟩ "c" (JsValue.obj none 1) (some "s1")).1,
   (trigger_frame ⟨[], [], 0⟩ "c" (JsValue.obj none 1) (some "s1")).2 (by decide)⟩

/-- Claim C6 counterexample: `trigger` with an absent payload (JavaScript
`undefined`) on a channel holding a site-scoped subscriber throws — the
subscription wrapper, code of this repository, evaluates `value.siteId`
off `undefined` — even though no subscriber callback itself throws.  This
contradicts the claim that every operation completes without throwing for
every optional payload, including an absent one. -/
theorem trigger_throws_on_undefined_payload :
    (trigger ⟨[("c", [⟨0, 6, some "s2"⟩])], [], 1⟩ "c"
      JsValue.undefined none).throws = true := by
  decide

/-- Claim C6 (amended): `on` and `onMultiple` are total and never throw
(they are plain functions of the model); `trigger` and `triggerUnique`
complete without throwing — provided the subscriber callbacks themselves
do not throw — whenever the payload is neither absent (`undefined`) nor
`null`, or alternatively no live subscriber of the channel carries a
truthy site scope. -/
theorem trigger_no_throw_for_defined_payload (st : State) (C : String)
    (data : JsValue) (siteId : Option String)
    (h : (data ≠ JsValue.undefined ∧ data ≠ JsValue.null)
         ∨ ∀ s ∈ (st.observables.lookup C).getD [], strTruthy s.scope = false) :
    (trigger st C data siteId).throws = false
    ∧ (triggerUnique st C data siteId).throws = false := by
  have key : ∀ subs : List Subscription, st.observables.lookup C = some subs →
      (deliver subs (mergeSiteId data siteId)).2 = false := by
    intro subs hsubs
    cases h with
    | inl hd =>
      exact deliver_defined_no_throw subs (mergeSiteId data siteId)
        (mergeSiteId_defined data siteId hd.1 hd.2).1
        (mergeSiteId_defined data siteId hd.1 hd.2).2
    | inr hu =>
      rw [hsubs] at hu
      simp only [Option.getD] at hu
      rw [deliver_unscoped subs (mergeSiteId data siteId) hu]
  constructor
  · unfold trigger
    cases hc : st.observables.lookup C with
    | none => rfl
    | some subs => simpa using key subs hc
  · unfold triggerUnique
    cases hr : st.uniqueEvents.lookup C with
    | some w => rfl
    | none =>
      cases hc : st.observables.lookup C with
      | none => rfl
      | some subs => simpa using key subs hc

theorem trigger_no_throw_for_defined_payload_witness :
    (trigger ⟨[("c", [⟨0, 1, some "s"⟩])], [], 1⟩ "c"
        (JsValue.prim false 0) none).throws = false
    ∧ (triggerUnique ⟨[("c", [⟨0, 1, some "s"⟩])], [], 1⟩ "c"
        (JsValue.prim false 0) none).throws = false :=
  trigger_no_throw_for_defined_payload ⟨[("c", [⟨0, 1, some "s"⟩])], [], 1⟩
    "c" (JsValue.prim false 0) none (by decide)

/-- Claim C7: `on` on a channel with no unique-event record never throws
and appends the new subscription at the end of the channel's list
(registration order); and a single non-throwing `trigger` call invokes, in
list (= registration) order, exactly the subscribers whose filters accept
the merged payload. -/
theorem registration_order_delivery (st : State) (C : String) (cb : Nat)
    (scope siteId : Option String) (data : JsValue)
    (subs : List Subscription)
    (h0 : st.uniqueEvents.lookup C = none)
    (hs : st.observables.lookup C = some subs)
    (ht : (trigger st C data siteId).throws = false) :
    «on» st C cb scope
      = ({ st with
            observables :=
              setAssoc st.observables C (subs ++ [⟨st.nextId, cb, scope⟩]),
            nextId := st.nextId + 1 },
         ⟨[ObsHandle.single C st.nextId]⟩, [])
    ∧ (trigger st C data siteId).calls
        = subs.filterMap
            (fun s => match accepts s.scope (mergeSiteId data siteId) with
                      | some true => some (s.cb, mergeSiteId data siteId)
                      | _ => none) := by
  constructor
  · unfold «on»
    rw [h0]
    simp [hs]
  · unfold trigger at ht ⊢
    rw [hs] at ht ⊢
    exact deliver_no_throw_eq subs (mergeSiteId data siteId) ht

theorem registration_order_delivery_witness :
    «on» ⟨[("c", [⟨0, 1, none⟩, ⟨1, 2, none⟩])], [], 2⟩ "c" 3 none
      = (⟨[("c", [⟨0, 1, none⟩, ⟨1, 2, none⟩, ⟨2, 3, none⟩])], [], 3⟩,
         ⟨[ObsHandle.single "c" 2]⟩, [])
    ∧ (trigger ⟨[("c", [⟨0, 1, none⟩, ⟨1, 2, none⟩])], [], 2⟩ "c"
        (JsValue.obj none 5) none).calls
        = ([⟨0, 1, none⟩, ⟨1, 2, none⟩] : List Subscription).filterMap
            (fun s => match accepts s.scope
                        (mergeSiteId (JsValue.obj none 5) none) with
                      | some true =>
                          some (s.cb, mergeSiteId (JsValue.obj none 5) none)
                      | _ => none) := by
  have h := registration_order_delivery
    ⟨[("c", [⟨0, 1, none⟩, ⟨1, 2, none⟩])], [], 2⟩ "c" 3 none none
    (JsValue.obj none 5) [⟨0, 1, none⟩, ⟨1, 2, none⟩]
    (by decide) (by decide) (by decide)
  exact ⟨h.1.trans (by decide), h.2⟩

/-- Claim C8: `onMultiple` has the same state effect as independently
calling `on` for each name in order; concretely, after
`onMultiple [a, b]` a trigger on `a` and a trigger on `b` each invoke the
callback once with the respective payload, and after releasing the
composite handle neither channel delivers anything. -/
theorem onMultiple_independent_subscribes (st : State) (names : List String)
    (cb : Nat) (scope : Option String) :
    (onMultiple st names cb scope).1
      = names.foldl (fun s n => («on» s n cb scope).1) st
    ∧ (trigger (onMultiple ⟨[], [], 0⟩ ["a", "b"] 5 none).1 "a"
        (JsValue.obj none 1) none).calls = [(5, JsValue.obj none 1)]
    ∧ (trigger (onMultiple ⟨[], [], 0⟩ ["a", "b"] 5 none).1 "b"
        (JsValue.obj none 2) none).calls = [(5, JsValue.obj none 2)]
    ∧ (trigger (offObserver (onMultiple ⟨[], [], 0⟩ ["a", "b"] 5 none).2.1
          (onMultiple ⟨[], [], 0⟩ ["a", "b"] 5 none).1) "a"
        (JsValue.obj none 1) none).calls = []
    ∧ (trigger (offObserver (onMultiple ⟨[], [], 0⟩ ["a", "b"] 5 none).2.1
          (onMultiple ⟨[], [], 0⟩ ["a", "b"] 5 none).1) "b"
        (JsValue.obj none 2) none).calls = [] := by
  refine ⟨?_, by decide, by decide, by decide, by decide⟩
  induction names generalizing st with
  | nil => rfl
  | cons n rest ih =>
    rw [List.foldl_cons]
    have e : (onMultiple st (n :: rest) cb scope).1
        = (onMultiple («on» st n cb scope).1 rest cb scope).1 := rfl
    rw [e]
    exact ih («on» st n cb scope).1

/-- Claim C9: in both `trigger` and `triggerUnique`, when a truthy
`siteId` is supplied but the payload is falsy, the `siteId` is silently
lost: the merge lands on a discarded temporary, subscribers are invoked
with the original payload, and the stored unique-event record holds the
original payload with no `siteId` field. -/
theorem siteId_lost_on_falsy_payload (st : State) (C : String)
    (data : JsValue) (siteId : Option String)
    (hf : falsy data = true) (_hs : strTruthy siteId = true) :
    mergeSiteId data siteId = data
    ∧ ((trigger st C data siteId).calls).all (fun p => p.2 == data) = true
    ∧ (st.uniqueEvents.lookup C = none →
        ((triggerUnique st C data siteId).state).uniqueEvents.lookup C
          = some data) := by
  have hm : mergeSiteId data siteId = data := by
    apply mergeSiteId_nonobj
    intro sid r he
    rw [he] at hf
    simp [falsy] at hf
  refine ⟨hm, ?_, ?_⟩
  · unfold trigger
    cases hc : st.observables.lookup C with
    | none => rfl
    | some subs =>
      simp only [List.all_eq_true]
      intro p hp
      rw [hm] at hp
      exact beq_iff_eq.mpr (deliver_val subs data p hp)
  · intro h
    rw [triggerUnique_state_of_none st C data siteId h, hm]
    exact lookup_setAssoc_self st.uniqueEvents C data

theorem siteId_lost_on_falsy_payload_witness :
    mergeSiteId JsValue.undefined (some "s1") = JsValue.undefined
    ∧ ((trigger ⟨[("c", [⟨0, 2, none⟩])], [], 1⟩ "c" JsValue.undefined
        (some "s1")).calls).all (fun p => p.2 == JsValue.undefined) = true
    ∧ ((triggerUnique ⟨[("c", [⟨0, 2, none⟩])], [], 1⟩ "c" JsValue.undefined
        (some "s1")).state).uniqueEvents.lookup "c"
      = some JsValue.undefined :=
  ⟨(siteId_lost_on_falsy_payload ⟨[("c", [⟨0, 2, none⟩])], [], 1⟩ "c"
      JsValue.undefined (some "s1") (by decide) (by decide)).1,
   (siteId_lost_on_falsy_payload ⟨[("c", [⟨0, 2, none⟩])], [], 1⟩ "c"
      JsValue.undefined (some "s1") (by decide) (by decide)).2.1,
   (siteId_lost_on_falsy_payload ⟨[("c", [⟨0, 2, none⟩])], [], 1⟩ "c"
      JsValue.undefined (some "s1") (by decide) (by decide)).2.2 (by decide)⟩

/-- Claim C10: the route table produced by `buildAppRoutes` is exactly the
flattened contributed routes, each with `CoreRedirectGuard` appended to
both its `canLoad` and `canActivate` guard lists (created when absent) and
every other field unchanged. -/
theorem buildAppRoutes_wraps_flattened_routes (contribs : List (List Route)) :
    buildAppRoutes contribs
      = (CoreArray.flatten contribs).map
          (fun r =>
            { canLoad := some (r.canLoad.getD [] ++ [Guard.coreRedirectGuard]),
              canActivate :=
                some (r.canActivate.getD [] ++ [Guard.coreRedirectGuard]),
              info := r.info })
    ∧ (buildAppRoutes contribs).length = (CoreArray.flatten contribs).length
    ∧ CoreArray.flatten contribs = contribs.flatten := by
  refine ⟨rfl, by simp [buildAppRoutes], ?_⟩
  induction contribs with
  | nil => simp [CoreArray.flatten]
  | cons l ls ih => simp [CoreArray.flatten, ih]
